import Mathlib

/-!
Shallow embedding of the end-to-end test harness `tests/e2e/run_tests.py`
of the debugger-cli repository, together with theorems settling the
spec claims about it.

Modelling conventions:
* Filesystem paths are structured values (`DirPath`): `tempfile.mkdtemp`
  yields a `tempDir` node carrying a freshness counter, and `os.path.join`
  yields a `sub` node.  No path normalisation happens in the source, so
  this structure is faithful.
* The external world (existence checks, compiler invocations, and the
  result of each spawned debugger-CLI process) is an `Oracle`: the n-th
  process spawned by the harness in one run gets outcome `O.results n`.
* The harness's observable behaviour is recorded as a chronological
  `Event` trace in the threaded state `HState`; `scenarioDone`, `probe`
  and `skip` events mark the points where `main` consumes a scenario
  result, runs a capability probe, or logs a skip.
* In the Python source, subprocess helpers return result triples and the
  compile helpers raise exceptions that `test_program` catches; both are
  total functions here.  String paths occurring inside argument vectors
  are abbreviated to the file/scenario name (the harness never inspects
  them).  The write of `hello_world.py` (lines 308-322) touches no state
  observed by any claim and is not modelled.
-/

/-!  Definitions: the data model, the embedded harness functions, derived
characterisations used by the theorems (`sessOutcome` reads off which
spawned-process results the session outcome depends on, the event
predicates classify trace entries), and the concrete oracles used as
witnesses and counterexamples. -/

/-- Structured filesystem path: a fresh temporary directory created by
`tempfile.mkdtemp` (identified by its name stem and a freshness id), or a
subdirectory `os.path.join parent component`. -/
inductive DirPath where
  | tempDir (stem : String) (id : Nat)
  | sub (parent : DirPath) (component : String)
deriving DecidableEq, Repr

/-- Directory-level view of the filesystem: the set of directories that
exist, plus the freshness counter backing `mkdtemp`. -/
structure FS where
  dirs : List DirPath
  tempCounter : Nat
deriving DecidableEq, Repr

/-- Embeds `os.makedirs(d, exist_ok=True)`: creates the directory if
absent, succeeds silently if it already exists. -/
def makedirs (fs : FS) (d : DirPath) : FS :=
  if d ∈ fs.dirs then fs else { fs with dirs := d :: fs.dirs }

/-- Embeds `tempfile.mkdtemp(prefix=stem)`: allocates a directory with a
name never handed out before (freshness counter). -/
def mkdtemp (fs : FS) (stem : String) : DirPath × FS :=
  let d := DirPath.tempDir stem fs.tempCounter
  (d, { fs with tempCounter := fs.tempCounter + 1, dirs := d :: fs.dirs })

/-- Strict descendant relation on paths: `isStrictlyInside p q` holds when
`p` lies strictly below directory `q`. -/
def isStrictlyInside : DirPath → DirPath → Bool
  | .tempDir _ _, _ => false
  | .sub parent _, q => parent == q || isStrictlyInside parent q

/-- Embeds `shutil.rmtree(d)` with its default `ignore_errors=False`
semantics: removes `d` and everything below it when `d` exists, raises
`FileNotFoundError` when it does not. -/
def rmtree (fs : FS) (d : DirPath) : Except String FS :=
  if d ∈ fs.dirs then
    Except.ok { fs with
      dirs := fs.dirs.filter (fun p => !(p == d || isStrictlyInside p d)) }
  else
    Except.error "FileNotFoundError"

/-- Outcome of one spawned child process: exit code and captured
stdout/stderr, as produced by `subprocess.communicate`. -/
structure CmdOutcome where
  returncode : Int
  stdout : String
  stderr : String
deriving DecidableEq, Repr

/-- Outcome of one `compiler_func(source, binary)` call inside
`test_program`: success, a `CalledProcessError` (compiler present but
returned non-zero), or a `FileNotFoundError` (compiler binary absent). -/
inductive CompileOutcome where
  | success
  | buildFailed
  | toolMissing
deriving DecidableEq, Repr

/-- The external world the harness interacts with: existence checks,
capability probes, per-scenario compiler outcomes, and the result of the
n-th debugger-CLI process spawned during the run. -/
structure Oracle where
  binExists : Bool
  debugpyOk : Bool
  delveOk : Bool
  goFileExists : Bool
  complexAppExists : Bool
  compile : String → CompileOutcome
  results : Nat → CmdOutcome

/-- Observable steps of one harness run, in chronological order. -/
inductive Event where
  | invoke (args : List String) (config_dir : Option DirPath)
      (hasInput : Bool) (ok : Bool)
  | compileEv (scenario : String) (outcome : CompileOutcome)
  | probe (tool : String) (present : Bool)
  | skipEv (scenario : String)
  | scenarioDone (scenario : String) (passed : Bool)
  | provision (dir : DirPath)
  | destroyEv (dir : DirPath) (ok : Bool)
deriving DecidableEq, Repr

/-- Threaded harness state: how many child processes have been spawned,
the chronological event trace, and the filesystem. -/
structure HState where
  counter : Nat
  trace : List Event
  fs : FS

/-- State at interpreter startup. -/
def initState : HState :=
  { counter := 0, trace := [], fs := { dirs := [], tempCounter := 0 } }

/-- Embeds the Python substring test `needle in hay`: literal substring
containment, no normalisation. -/
def pyIn (needle hay : String) : Bool :=
  (List.range (hay.data.length + 1)).any
    (fun i => needle.data.isPrefixOf (hay.data.drop i))

/-- Embeds `run_debugger_command` (run_tests.py lines 70-99).  When a
config directory is supplied, `XDG_RUNTIME_DIR` is pointed at the
`runtime` subdirectory of the config root and created with
`os.makedirs(..., exist_ok=True)` before the child is spawned.  The call
returns `(returncode == 0, stdout, stderr)` and never raises. -/
def run_debugger_command (O : Oracle) (cmd : List String)
    (config_dir : Option DirPath) (input_cmds : Option String)
    (st : HState) : (Bool × String × String) × HState :=
  let fs' := match config_dir with
    | some d => makedirs st.fs (DirPath.sub d "runtime")
    | none => st.fs
  let r := O.results st.counter
  ((r.returncode == 0, r.stdout, r.stderr),
   { counter := st.counter + 1,
     trace := st.trace ++
       [Event.invoke cmd config_dir input_cmds.isSome (r.returncode == 0)],
     fs := fs' })

/-- Embeds `setup_config` (lines 36-68): creates the fresh temporary
config root with `mkdtemp`, creates the application subdirectory inside
it, and writes the adapter-registry file `config.toml` there. -/
def setup_config (st : HState) : DirPath × HState :=
  let p := mkdtemp st.fs "debugger-test-config-"
  let fs := makedirs p.2 (DirPath.sub p.1 "debugger-cli")
  (p.1, { st with fs := fs, trace := st.trace ++ [Event.provision p.1] })

/-- Expected output substring of the C scenario (line 294). -/
def cExp : String := "Hello from C! Sum is 30"

/-- Expected output substring of the Rust scenario (line 298). -/
def rsExp : String := "Hello from Rust! Sum is 30"

/-- Expected output substring of the Python scenario (line 324). -/
def pyExp : String := "Hello from Python! Sum is 30"

/-- Expected output substring of the Go scenario (line 334). -/
def goExp : String := "Hello from Go! Sum is 30"

/-- Batched stdin script sent by `test_complex_python` (lines 244-254). -/
def input_script : String :=
  "break scenarios.py:8\ncontinue\ncontinue\nbt 5\nlocals\nbreak remove --all\ncontinue\nawait\noutput"

/-- Embeds the post-compilation part of `test_program` (lines 117-190):
stop any stale daemon (result ignored), start, set the breakpoint,
continue, await the stop, inspect threads (result ignored) and locals,
continue to the end, await exit (result ignored), fetch the program
output, and check the expected substring. -/
def test_program_run (O : Oracle) (binary expected : String)
    (config_dir : DirPath) (adapterArgs : List String)
    (st : HState) : Bool × HState :=
  let r1 := run_debugger_command O ["stop"] (some config_dir) none st
  let r2 := run_debugger_command O (["start", binary, "--stop-on-entry"] ++ adapterArgs)
    (some config_dir) none r1.2
  if !r2.1.1 then (false, r2.2) else
  let r3 := run_debugger_command O ["breakpoint", "add", "main"] (some config_dir) none r2.2
  if !r3.1.1 then (false, r3.2) else
  let r4 := run_debugger_command O ["continue"] (some config_dir) none r3.2
  if !r4.1.1 then (false, r4.2) else
  let r5 := run_debugger_command O ["await"] (some config_dir) none r4.2
  if !r5.1.1 then (false, r5.2) else
  let r6 := run_debugger_command O ["threads"] (some config_dir) none r5.2
  let r7 := run_debugger_command O ["locals"] (some config_dir) none r6.2
  if !r7.1.1 then (false, r7.2) else
  let r8 := run_debugger_command O ["continue"] (some config_dir) none r7.2
  if !r8.1.1 then (false, r8.2) else
  let r9 := run_debugger_command O ["await"] (some config_dir) none r8.2
  let r10 := run_debugger_command O ["output"] (some config_dir) none r9.2
  if !(pyIn expected r10.1.2.1) then (false, r10.2) else (true, r10.2)

/-- Embeds `test_program` (lines 101-190).  With a compiler, the
compilation step runs first and any exception it raises (missing tool or
failed build) is caught and fails the scenario; without one, the source
file itself is the debug target. -/
def test_program (O : Oracle) (name sourceFile : String)
    (compilerTool : Option String) (expected : String)
    (config_dir : DirPath) (adapterArgs : List String)
    (st : HState) : Bool × HState :=
  match compilerTool with
  | some _ =>
    match O.compile name with
    | CompileOutcome.success =>
        test_program_run O name expected config_dir adapterArgs
          { st with trace := st.trace ++ [Event.compileEv name CompileOutcome.success] }
    | r => (false, { st with trace := st.trace ++ [Event.compileEv name r] })
  | none => test_program_run O sourceFile expected config_dir adapterArgs st

/-- Embeds `test_complex_python` (lines 192-265): existence check for the
complex app, stop any stale daemon (result ignored), start under debugpy,
then pipe the whole batched command script and check the final output for
the completion marker. -/
def test_complex_python (O : Oracle) (config_dir : DirPath)
    (st : HState) : Bool × HState :=
  if !O.complexAppExists then (false, st) else
  let r1 := run_debugger_command O ["stop"] (some config_dir) none st
  let r2 := run_debugger_command O
    ["start", "main.py", "--adapter", "debugpy", "--stop-on-entry"]
    (some config_dir) none r1.2
  if !r2.1.1 then (false, r2.2) else
  let r3 := run_debugger_command O [] (some config_dir) (some input_script) r2.2
  if !(pyIn "Complex App Finished" r3.1.2.1) then (false, r3.2) else (true, r3.2)

/-- Consumption of one scenario result by `main`: the boolean returned is
the scenario's contribution to the `failed` flag (`true` when the
scenario failed), and the consumption point is recorded in the trace. -/
def scenarioStep (name : String) (r : Bool × HState) : Bool × HState :=
  (!r.1, { r.2 with trace := r.2.trace ++ [Event.scenarioDone name r.1] })

/-- The C scenario as run by `main` (line 294). -/
def cStep (O : Oracle) (config_dir : DirPath) (st : HState) : Bool × HState :=
  scenarioStep "test_c"
    (test_program O "test_c" "hello_world.c" (some "gcc") cExp config_dir [] st)

/-- The Rust scenario as run by `main` (line 298). -/
def rStep (O : Oracle) (config_dir : DirPath) (st : HState) : Bool × HState :=
  scenarioStep "test_rs"
    (test_program O "test_rs" "hello_world.rs" (some "rustc") rsExp config_dir [] st)

/-- The Python block of `main` (lines 302-327): `check_debugpy` probe,
then either the interpreted-target scenario or a logged skip. -/
def pythonStep (O : Oracle) (config_dir : DirPath) (st : HState) : Bool × HState :=
  let st := { st with trace := st.trace ++ [Event.probe "debugpy" O.debugpyOk] }
  if O.debugpyOk then
    scenarioStep "test_py"
      (test_program O "test_py" "hello_world.py" none pyExp config_dir
        ["--adapter", "debugpy"] st)
  else (false, { st with trace := st.trace ++ [Event.skipEv "test_py"] })

/-- The Go block of `main` (lines 330-339): `check_delve` probe, then the
Go scenario when both the probe and the fixture-existence check pass,
otherwise a logged skip. -/
def goStep (O : Oracle) (config_dir : DirPath) (st : HState) : Bool × HState :=
  let st := { st with trace := st.trace ++ [Event.probe "dlv" O.delveOk] }
  if O.delveOk then
    if O.goFileExists then
      scenarioStep "test_go"
        (test_program O "test_go" "hello_world.go" (some "go") goExp config_dir
          ["--adapter", "go"] st)
    else (false, { st with trace := st.trace ++ [Event.skipEv "test_go"] })
  else (false, { st with trace := st.trace ++ [Event.skipEv "test_go"] })

/-- The complex-app block of `main` (lines 342-344): second
`check_debugpy` probe, then the complex scenario; no log when skipped. -/
def complexStep (O : Oracle) (config_dir : DirPath) (st : HState) : Bool × HState :=
  let st := { st with trace := st.trace ++ [Event.probe "debugpy" O.debugpyOk] }
  if O.debugpyOk then
    scenarioStep "complex_python" (test_complex_python O config_dir st)
  else (false, st)

/-- Embeds the harness entry point `main` (lines 282-354; named `harnessMain` here): debugger-binary existence gate, one
`setup_config` for the whole run, the five scenario blocks accumulating
the `failed` flag, the unconditional `shutil.rmtree` cleanup in the
`finally` block, and the final exit code.  An exception escaping the
cleanup (`rmtree` on an absent directory) terminates the interpreter
with exit code 1. -/
def harnessMain (O : Oracle) : Nat × HState :=
  if !O.binExists then (1, initState) else
  let p := setup_config initState
  let c1 := cStep O p.1 p.2
  let c2 := rStep O p.1 c1.2
  let c3 := pythonStep O p.1 c2.2
  let c4 := goStep O p.1 c3.2
  let c5 := complexStep O p.1 c4.2
  let failed := c1.1 || c2.1 || c3.1 || c4.1 || c5.1
  match rmtree c5.2.fs p.1 with
  | Except.ok fs2 =>
      (if failed then 1 else 0,
       { c5.2 with fs := fs2, trace := c5.2.trace ++ [Event.destroyEv p.1 true] })
  | Except.error _ =>
      (1, { c5.2 with trace := c5.2.trace ++ [Event.destroyEv p.1 false] })

/-- Which oracle results decide the outcome of one `test_program_run`
session started at process counter `c`: the start, breakpoint, both
continues, the first await and the locals call must succeed, and then the
verdict is the substring check on the `output` call's stdout. -/
def sessOutcome (O : Oracle) (c : Nat) (expected : String) : Bool :=
  if !((O.results (c+1)).returncode == 0) then false
  else if !((O.results (c+2)).returncode == 0) then false
  else if !((O.results (c+3)).returncode == 0) then false
  else if !((O.results (c+4)).returncode == 0) then false
  else if !((O.results (c+6)).returncode == 0) then false
  else if !((O.results (c+7)).returncode == 0) then false
  else pyIn expected (O.results (c+9)).stdout

/-- Outcome of a whole `test_program` call, compilation included. -/
def testOutcome (O : Oracle) (c : Nat) (comp : Option String)
    (name expected : String) : Bool :=
  match comp with
  | some _ =>
    match O.compile name with
    | CompileOutcome.success => sessOutcome O c expected
    | _ => false
  | none => sessOutcome O c expected

/-- Events a `test_program`/`test_complex_python` call can emit: debugger
invocations carrying the given config directory, and compile steps. -/
def scenEvent (cfg : DirPath) : Event → Bool
  | .invoke _ c _ _ => c == some cfg
  | .compileEv _ _ => true
  | _ => false

/-- Events the scenario-running part of `harnessMain` can emit: anything a
scenario emits, plus probes, skips and scenario results — but no
provisioning and no destruction. -/
def mainEvent (cfg : DirPath) : Event → Bool
  | .invoke _ c _ _ => c == some cfg
  | .compileEv _ _ => true
  | .probe _ _ => true
  | .skipEv _ => true
  | .scenarioDone _ _ => true
  | _ => false

/-- Recognises the record of a failed scenario. -/
def isFailedScenario : Event → Bool
  | .scenarioDone _ passed => !passed
  | _ => false

/-- Recognises the result record of the named scenario. -/
def isDoneOf (n : String) : Event → Bool
  | .scenarioDone m _ => m == n
  | _ => false

/-- Holds when every scenario-result record in sight belongs to one of the
given scenario names. -/
def doneNameIn (names : List String) : Event → Bool
  | .scenarioDone m _ => names.contains m
  | _ => true

/-- Recognises an environment-provisioning event. -/
def isProvisionEv : Event → Bool
  | .provision _ => true
  | _ => false

/-- Holds when the event, if it is a debugger invocation, carries the
given config directory. -/
def invokeUses (cfg : DirPath) : Event → Bool
  | .invoke _ c _ _ => c == some cfg
  | _ => true

/-- Trace/filesystem relation between the state a scenario starts from and
any state it reaches: only scenario events (all carrying the scenario's
config directory) are appended, and existing directories survive. -/
def ExtendsTr (cfg : DirPath) (st st' : HState) : Prop :=
  (∃ es, st'.trace = st.trace ++ es ∧ es.all (scenEvent cfg) = true)
  ∧ (∀ d, d ∈ st.fs.dirs → d ∈ st'.fs.dirs)

/-- The config root allocated by the single `setup_config` call of a run
starting from a fresh interpreter. -/
def cfg0 : DirPath := DirPath.tempDir "debugger-test-config-" 0

/-- State right after `setup_config` at interpreter startup. -/
def stInit : HState :=
  { counter := 0,
    trace := [Event.provision cfg0],
    fs := { dirs := [DirPath.sub cfg0 "debugger-cli", cfg0], tempCounter := 1 } }

/-- Recognises a debugger-CLI invocation event. -/
def isInvokeEv : Event → Bool
  | .invoke _ _ _ _ => true
  | _ => false

/-- The ten debugger invocations of a complete `test_program_run` session
whose first process spawns at counter `c`, in order. -/
def sessEvents (O : Oracle) (c : Nat) (binary : String) (cfg : DirPath)
    (args : List String) : List Event :=
  [Event.invoke ["stop"] (some cfg) false ((O.results c).returncode == 0),
   Event.invoke (["start", binary, "--stop-on-entry"] ++ args) (some cfg) false
     ((O.results (c+1)).returncode == 0),
   Event.invoke ["breakpoint", "add", "main"] (some cfg) false
     ((O.results (c+2)).returncode == 0),
   Event.invoke ["continue"] (some cfg) false ((O.results (c+3)).returncode == 0),
   Event.invoke ["await"] (some cfg) false ((O.results (c+4)).returncode == 0),
   Event.invoke ["threads"] (some cfg) false ((O.results (c+5)).returncode == 0),
   Event.invoke ["locals"] (some cfg) false ((O.results (c+6)).returncode == 0),
   Event.invoke ["continue"] (some cfg) false ((O.results (c+7)).returncode == 0),
   Event.invoke ["await"] (some cfg) false ((O.results (c+8)).returncode == 0),
   Event.invoke ["output"] (some cfg) false ((O.results (c+9)).returncode == 0)]

/-- Stdout containing every scenario's expected marker, used for fully
successful runs. -/
def bigOut : String :=
  "Hello from C! Sum is 30 Hello from Rust! Sum is 30 Hello from Python! Sum is 30 Hello from Go! Sum is 30 Complex App Finished"

/-- Successful child process whose stdout carries all markers. -/
def okOutcome : CmdOutcome := { returncode := 0, stdout := bigOut, stderr := "" }

/-- Successful child process whose stdout carries the C marker. -/
def goodOutcome : CmdOutcome := { returncode := 0, stdout := cExp, stderr := "" }

/-- Failing child process. -/
def badOutcome : CmdOutcome := { returncode := 1, stdout := "", stderr := "crash" }

/-- Fully equipped host on which everything succeeds. -/
def Oall : Oracle :=
  { binExists := true, debugpyOk := true, delveOk := true, goFileExists := true,
    complexAppExists := true,
    compile := fun _ => CompileOutcome.success,
    results := fun _ => okOutcome }

/-- Host with the debugger built but gcc absent; debugpy and dlv are also
absent, and every spawned command succeeds with the Rust marker. -/
def OgccMissing : Oracle :=
  { binExists := true, debugpyOk := false, delveOk := false, goFileExists := false,
    complexAppExists := true,
    compile := fun n => if n = "test_c" then CompileOutcome.toolMissing
                        else CompileOutcome.success,
    results := fun _ => { returncode := 0, stdout := rsExp, stderr := "" } }

/-- Run in which only the seventh spawned process (the `locals` command of
the first scenario) fails; all other commands succeed with the C marker. -/
def OlocalsFail : Oracle :=
  { binExists := true, debugpyOk := false, delveOk := false, goFileExists := false,
    complexAppExists := true,
    compile := fun _ => CompileOutcome.success,
    results := fun k => if k = 6 then badOutcome else goodOutcome }

/-- Same run with the `locals` command succeeding as well. -/
def OlocalsOk : Oracle := { OlocalsFail with results := fun _ => goodOutcome }

/-- Same as `OlocalsOk` except that only the sixth spawned process (the
`threads` command of the first scenario) fails; every other command,
`locals` included, succeeds with the C marker. -/
def OthreadsFail : Oracle :=
  { OlocalsOk with
    results := fun k => if k = 5 then badOutcome else goodOutcome }

/-- Same as `OlocalsOk` except the first spawned process (the initial
`stop` command) fails. -/
def OstopFail : Oracle :=
  { OlocalsOk with results := fun k => if k = 0 then badOutcome else goodOutcome }

/-- Same as `OlocalsOk` except the ninth spawned process (the final
`await` after the last `continue`) fails. -/
def Oawait2Fail : Oracle :=
  { OlocalsOk with results := fun k => if k = 8 then badOutcome else goodOutcome }

/-- Host on which the debugger binary was never built. -/
def Onobin : Oracle := { Oall with binExists := false }

/-!  Theorems.  Helper lemmas come first, the claim theorems, their
witnesses and counterexamples follow. -/

theorem rdc_fst (O : Oracle) (cmd : List String) (cfg : Option DirPath)
    (inp : Option String) (st : HState) :
    (run_debugger_command O cmd cfg inp st).1 =
      ((O.results st.counter).returncode == 0,
       (O.results st.counter).stdout, (O.results st.counter).stderr) := rfl

theorem rdc_snd_counter (O : Oracle) (cmd : List String) (cfg : Option DirPath)
    (inp : Option String) (st : HState) :
    (run_debugger_command O cmd cfg inp st).2.counter = st.counter + 1 := rfl

theorem test_program_run_fst (O : Oracle) (binary expected : String)
    (cfg : DirPath) (args : List String) (st : HState) :
    (test_program_run O binary expected cfg args st).1 =
      sessOutcome O st.counter expected := by
  simp only [test_program_run, sessOutcome, rdc_fst, rdc_snd_counter,
    apply_ite Prod.fst, Nat.add_assoc]
  have hb : ∀ b : Bool, (if (!b) = true then false else true) = b := by decide
  simp [hb]

theorem test_program_fst (O : Oracle) (name srcF : String)
    (comp : Option String) (expected : String) (cfg : DirPath)
    (args : List String) (st : HState) :
    (test_program O name srcF comp expected cfg args st).1 =
      testOutcome O st.counter comp name expected := by
  cases comp with
  | none => simp [test_program, testOutcome, test_program_run_fst]
  | some t =>
      cases h : O.compile name <;>
        simp [test_program, testOutcome, h, test_program_run_fst]

theorem scenEvent_mainEvent {cfg : DirPath} {e : Event}
    (h : scenEvent cfg e = true) : mainEvent cfg e = true := by
  cases e <;> simp_all [scenEvent, mainEvent]

theorem scenEvent_doneNameIn {cfg : DirPath} {e : Event}
    (h : scenEvent cfg e = true) (ns : List String) : doneNameIn ns e = true := by
  cases e <;> simp_all [scenEvent, doneNameIn]

theorem scenEvent_notFailed {cfg : DirPath} {e : Event}
    (h : scenEvent cfg e = true) : isFailedScenario e = false := by
  cases e <;> simp_all [scenEvent, isFailedScenario]

theorem mainEvent_notProvision {cfg : DirPath} {e : Event}
    (h : mainEvent cfg e = true) : isProvisionEv e = false := by
  cases e <;> simp_all [mainEvent, isProvisionEv]

theorem mainEvent_invokeUses {cfg : DirPath} {e : Event}
    (h : mainEvent cfg e = true) : invokeUses cfg e = true := by
  cases e <;> simp_all [mainEvent, invokeUses]

theorem doneNameIn_single_ne {n m : String} (hnm : n ≠ m) {e : Event}
    (h : doneNameIn [n] e = true) : isDoneOf m e = false := by
  cases e with
  | scenarioDone s p =>
      have hs : s = n := by simpa [doneNameIn] using h
      simp [isDoneOf, hs, hnm]
  | invoke a b c d => rfl
  | compileEv a b => rfl
  | probe a b => rfl
  | skipEv a => rfl
  | provision a => rfl
  | destroyEv a b => rfl

theorem all_imp {α : Type} {p q : α → Bool}
    (h : ∀ a, p a = true → q a = true) {l : List α}
    (hl : l.all p = true) : l.all q = true := by
  simp only [List.all_eq_true] at hl ⊢
  exact fun a ha => h a (hl a ha)

theorem any_false_of_all {α : Type} {p q : α → Bool}
    (h : ∀ a, p a = true → q a = false) {l : List α}
    (hl : l.all p = true) : l.any q = false := by
  simp only [List.all_eq_true] at hl
  simp only [List.any_eq_false]
  intro a ha
  simp [h a (hl a ha)]

theorem extendsTr_refl (cfg : DirPath) (st : HState) : ExtendsTr cfg st st :=
  ⟨⟨[], by simp, rfl⟩, fun _ h => h⟩

theorem mem_makedirs {fs : FS} {d : DirPath} (e : DirPath)
    (h : d ∈ fs.dirs) : d ∈ (makedirs fs e).dirs := by
  unfold makedirs
  split
  · exact h
  · simp [h]

theorem extendsTr_step (O : Oracle) (cmd : List String) (inp : Option String)
    {cfg : DirPath} {st st' : HState} (h : ExtendsTr cfg st st') :
    ExtendsTr cfg st (run_debugger_command O cmd (some cfg) inp st').2 := by
  obtain ⟨⟨es, hT, hA⟩, hD⟩ := h
  constructor
  · refine ⟨es ++ [Event.invoke cmd (some cfg) inp.isSome
      ((O.results st'.counter).returncode == 0)], ?_, ?_⟩
    · simp [run_debugger_command, hT]
    · simp [List.all_append, hA, scenEvent]
  · intro d hd
    simpa [run_debugger_command] using mem_makedirs _ (hD d hd)

theorem extendsTr_pre {cfg : DirPath} {st st' : HState} (e : Event)
    (he : scenEvent cfg e = true)
    (h : ExtendsTr cfg { st with trace := st.trace ++ [e] } st') :
    ExtendsTr cfg st st' := by
  obtain ⟨⟨es, hT, hA⟩, hD⟩ := h
  refine ⟨⟨e :: es, ?_, ?_⟩, hD⟩
  · rw [hT]; simp
  · simp [hA, he]

theorem test_program_run_extends (O : Oracle) (binary expected : String)
    (cfg : DirPath) (args : List String) (st : HState) :
    ExtendsTr cfg st (test_program_run O binary expected cfg args st).2 := by
  simp only [test_program_run]
  repeat' split
  all_goals
    repeat
      first
        | exact extendsTr_refl cfg st
        | apply extendsTr_step

theorem test_program_extends (O : Oracle) (name srcF : String)
    (comp : Option String) (expected : String) (cfg : DirPath)
    (args : List String) (st : HState) :
    ExtendsTr cfg st (test_program O name srcF comp expected cfg args st).2 := by
  cases comp with
  | none => exact test_program_run_extends O srcF expected cfg args st
  | some t =>
      cases h : O.compile name with
      | success =>
          simp only [test_program, h]
          exact extendsTr_pre (Event.compileEv name CompileOutcome.success) rfl
            (test_program_run_extends O name expected cfg args _)
      | buildFailed =>
          simp only [test_program, h]
          exact ⟨⟨[Event.compileEv name CompileOutcome.buildFailed], rfl, rfl⟩,
            fun _ hd => hd⟩
      | toolMissing =>
          simp only [test_program, h]
          exact ⟨⟨[Event.compileEv name CompileOutcome.toolMissing], rfl, rfl⟩,
            fun _ hd => hd⟩

theorem test_complex_python_extends (O : Oracle) (cfg : DirPath) (st : HState) :
    ExtendsTr cfg st (test_complex_python O cfg st).2 := by
  simp only [test_complex_python]
  repeat' split
  all_goals
    repeat
      first
        | exact extendsTr_refl cfg st
        | apply extendsTr_step

theorem scenarioStep_spec (name : String) (cfg : DirPath) (st : HState)
    (r : Bool × HState) (h : ExtendsTr cfg st r.2) :
    ∃ es,
      (scenarioStep name r).2.trace = st.trace ++ es
      ∧ es.all (mainEvent cfg) = true
      ∧ es.all (doneNameIn [name]) = true
      ∧ es.any isFailedScenario = (scenarioStep name r).1
      ∧ Event.scenarioDone name r.1 ∈ es
      ∧ (∀ d, d ∈ st.fs.dirs → d ∈ (scenarioStep name r).2.fs.dirs) := by
  obtain ⟨⟨es, hT, hA⟩, hD⟩ := h
  refine ⟨es ++ [Event.scenarioDone name r.1], ?_, ?_, ?_, ?_, ?_, ?_⟩
  · simp [scenarioStep, hT]
  · simp only [List.all_append, Bool.and_eq_true]
    exact ⟨all_imp (fun e he => scenEvent_mainEvent he) hA, by simp [mainEvent]⟩
  · simp only [List.all_append, Bool.and_eq_true]
    refine ⟨all_imp (fun e he => scenEvent_doneNameIn he [name]) hA, ?_⟩
    simp [doneNameIn]
  · simp [List.any_append,
      any_false_of_all (fun e he => scenEvent_notFailed he) hA,
      scenarioStep, isFailedScenario]
  · simp
  · exact hD

theorem cStep_spec (O : Oracle) (cfg : DirPath) (st : HState) :
    ∃ es,
      (cStep O cfg st).2.trace = st.trace ++ es
      ∧ es.all (mainEvent cfg) = true
      ∧ es.all (doneNameIn ["test_c"]) = true
      ∧ es.any isFailedScenario = (cStep O cfg st).1
      ∧ Event.scenarioDone "test_c" (!(cStep O cfg st).1) ∈ es
      ∧ (O.compile "test_c" = CompileOutcome.toolMissing → (cStep O cfg st).1 = true)
      ∧ (∀ d, d ∈ st.fs.dirs → d ∈ (cStep O cfg st).2.fs.dirs) := by
  obtain ⟨es, h1, h2, h3, h4, h5, h6⟩ :=
    scenarioStep_spec "test_c" cfg st
      (test_program O "test_c" "hello_world.c" (some "gcc") cExp cfg [] st)
      (test_program_extends O "test_c" "hello_world.c" (some "gcc") cExp cfg [] st)
  refine ⟨es, h1, h2, h3, h4, ?_, ?_, h6⟩
  · have hc : (cStep O cfg st).1 =
        !(test_program O "test_c" "hello_world.c" (some "gcc") cExp cfg [] st).1 := rfl
    rw [hc, Bool.not_not]
    exact h5
  · intro htm
    have hc : (cStep O cfg st).1 =
        !(test_program O "test_c" "hello_world.c" (some "gcc") cExp cfg [] st).1 := rfl
    rw [hc, test_program_fst]
    simp [testOutcome, htm]

theorem rStep_spec (O : Oracle) (cfg : DirPath) (st : HState) :
    ∃ es,
      (rStep O cfg st).2.trace = st.trace ++ es
      ∧ es.all (mainEvent cfg) = true
      ∧ es.all (doneNameIn ["test_rs"]) = true
      ∧ es.any isFailedScenario = (rStep O cfg st).1
      ∧ Event.scenarioDone "test_rs" (!(rStep O cfg st).1) ∈ es
      ∧ (∀ d, d ∈ st.fs.dirs → d ∈ (rStep O cfg st).2.fs.dirs) := by
  obtain ⟨es, h1, h2, h3, h4, h5, h6⟩ :=
    scenarioStep_spec "test_rs" cfg st
      (test_program O "test_rs" "hello_world.rs" (some "rustc") rsExp cfg [] st)
      (test_program_extends O "test_rs" "hello_world.rs" (some "rustc") rsExp cfg [] st)
  refine ⟨es, h1, h2, h3, h4, ?_, h6⟩
  have hc : (rStep O cfg st).1 =
      !(test_program O "test_rs" "hello_world.rs" (some "rustc") rsExp cfg [] st).1 := rfl
  rw [hc, Bool.not_not]
  exact h5

theorem pythonStep_spec (O : Oracle) (cfg : DirPath) (st : HState) :
    ∃ es,
      (pythonStep O cfg st).2.trace = st.trace ++ es
      ∧ es.all (mainEvent cfg) = true
      ∧ es.all (doneNameIn ["test_py"]) = true
      ∧ es.any isFailedScenario = (pythonStep O cfg st).1
      ∧ (∀ d, d ∈ st.fs.dirs → d ∈ (pythonStep O cfg st).2.fs.dirs)
      ∧ (O.debugpyOk = false →
          Event.skipEv "test_py" ∈ es
          ∧ es.all (fun e => !(isDoneOf "test_py" e)) = true) := by
  cases hd : O.debugpyOk with
  | true =>
      have hstep : pythonStep O cfg st =
          scenarioStep "test_py"
            (test_program O "test_py" "hello_world.py" none pyExp cfg
              ["--adapter", "debugpy"]
              { st with trace := st.trace ++ [Event.probe "debugpy" true] }) := by
        simp [pythonStep, hd]
      obtain ⟨es, h1, h2, h3, h4, h5, h6⟩ :=
        scenarioStep_spec "test_py" cfg
          { st with trace := st.trace ++ [Event.probe "debugpy" true] }
          (test_program O "test_py" "hello_world.py" none pyExp cfg
            ["--adapter", "debugpy"]
            { st with trace := st.trace ++ [Event.probe "debugpy" true] })
          (test_program_extends O "test_py" "hello_world.py" none pyExp cfg
            ["--adapter", "debugpy"]
            { st with trace := st.trace ++ [Event.probe "debugpy" true] })
      refine ⟨Event.probe "debugpy" true :: es, ?_, ?_, ?_, ?_, ?_, ?_⟩
      · rw [hstep, h1]; simp
      · simp [List.all_cons, mainEvent, h2]
      · simp [List.all_cons, doneNameIn, h3]
      · rw [hstep]; simp [List.any_cons, isFailedScenario, h4]
      · rw [hstep]; exact h6
      · intro hfalse; exact absurd hfalse (by simp [hd])
  | false =>
      have hstep : pythonStep O cfg st =
          (false, { st with trace :=
            (st.trace ++ [Event.probe "debugpy" false]) ++ [Event.skipEv "test_py"] }) := by
        simp [pythonStep, hd]
      refine ⟨[Event.probe "debugpy" false, Event.skipEv "test_py"], ?_, ?_, ?_, ?_, ?_, ?_⟩
      · rw [hstep]; simp
      · simp [List.all_cons, mainEvent]
      · simp [List.all_cons, doneNameIn]
      · rw [hstep]; simp [List.any_cons, isFailedScenario]
      · rw [hstep]; exact fun d hmem => hmem
      · intro _
        exact ⟨by simp, by simp [List.all_cons, isDoneOf]⟩

theorem goStep_spec (O : Oracle) (cfg : DirPath) (st : HState) :
    ∃ es,
      (goStep O cfg st).2.trace = st.trace ++ es
      ∧ es.all (mainEvent cfg) = true
      ∧ es.all (doneNameIn ["test_go"]) = true
      ∧ es.any isFailedScenario = (goStep O cfg st).1
      ∧ (∀ d, d ∈ st.fs.dirs → d ∈ (goStep O cfg st).2.fs.dirs)
      ∧ (O.delveOk = false →
          Event.skipEv "test_go" ∈ es
          ∧ es.all (fun e => !(isDoneOf "test_go" e)) = true) := by
  cases hd : O.delveOk with
  | true =>
      cases hg : O.goFileExists with
      | true =>
          have hstep : goStep O cfg st =
              scenarioStep "test_go"
                (test_program O "test_go" "hello_world.go" (some "go") goExp cfg
                  ["--adapter", "go"]
                  { st with trace := st.trace ++ [Event.probe "dlv" true] }) := by
            simp [goStep, hd, hg]
          obtain ⟨es, h1, h2, h3, h4, h5, h6⟩ :=
            scenarioStep_spec "test_go" cfg
              { st with trace := st.trace ++ [Event.probe "dlv" true] }
              (test_program O "test_go" "hello_world.go" (some "go") goExp cfg
                ["--adapter", "go"]
                { st with trace := st.trace ++ [Event.probe "dlv" true] })
              (test_program_extends O "test_go" "hello_world.go" (some "go") goExp cfg
                ["--adapter", "go"]
                { st with trace := st.trace ++ [Event.probe "dlv" true] })
          refine ⟨Event.probe "dlv" true :: es, ?_, ?_, ?_, ?_, ?_, ?_⟩
          · rw [hstep, h1]; simp
          · simp [List.all_cons, mainEvent, h2]
          · simp [List.all_cons, doneNameIn, h3]
          · rw [hstep]; simp [List.any_cons, isFailedScenario, h4]
          · rw [hstep]; exact h6
          · intro hfalse; exact absurd hfalse (by simp [hd])
      | false =>
          have hstep : goStep O cfg st =
              (false, { st with trace :=
                (st.trace ++ [Event.probe "dlv" true]) ++ [Event.skipEv "test_go"] }) := by
            simp [goStep, hd, hg]
          refine ⟨[Event.probe "dlv" true, Event.skipEv "test_go"], ?_, ?_, ?_, ?_, ?_, ?_⟩
          · rw [hstep]; simp
          · simp [List.all_cons, mainEvent]
          · simp [List.all_cons, doneNameIn]
          · rw [hstep]; simp [List.any_cons, isFailedScenario]
          · rw [hstep]; exact fun d hmem => hmem
          · intro hfalse; exact absurd hfalse (by simp [hd])
  | false =>
      have hstep : goStep O cfg st =
          (false, { st with trace :=
            (st.trace ++ [Event.probe "dlv" false]) ++ [Event.skipEv "test_go"] }) := by
        simp [goStep, hd]
      refine ⟨[Event.probe "dlv" false, Event.skipEv "test_go"], ?_, ?_, ?_, ?_, ?_, ?_⟩
      · rw [hstep]; simp
      · simp [List.all_cons, mainEvent]
      · simp [List.all_cons, doneNameIn]
      · rw [hstep]; simp [List.any_cons, isFailedScenario]
      · rw [hstep]; exact fun d hmem => hmem
      · intro _
        exact ⟨by simp, by simp [List.all_cons, isDoneOf]⟩

theorem complexStep_spec (O : Oracle) (cfg : DirPath) (st : HState) :
    ∃ es,
      (complexStep O cfg st).2.trace = st.trace ++ es
      ∧ es.all (mainEvent cfg) = true
      ∧ es.all (doneNameIn ["complex_python"]) = true
      ∧ es.any isFailedScenario = (complexStep O cfg st).1
      ∧ (∀ d, d ∈ st.fs.dirs → d ∈ (complexStep O cfg st).2.fs.dirs) := by
  cases hd : O.debugpyOk with
  | true =>
      have hstep : complexStep O cfg st =
          scenarioStep "complex_python"
            (test_complex_python O cfg
              { st with trace := st.trace ++ [Event.probe "debugpy" true] }) := by
        simp [complexStep, hd]
      obtain ⟨es, h1, h2, h3, h4, h5, h6⟩ :=
        scenarioStep_spec "complex_python" cfg
          { st with trace := st.trace ++ [Event.probe "debugpy" true] }
          (test_complex_python O cfg
            { st with trace := st.trace ++ [Event.probe "debugpy" true] })
          (test_complex_python_extends O cfg
            { st with trace := st.trace ++ [Event.probe "debugpy" true] })
      refine ⟨Event.probe "debugpy" true :: es, ?_, ?_, ?_, ?_, ?_⟩
      · rw [hstep, h1]; simp
      · simp [List.all_cons, mainEvent, h2]
      · simp [List.all_cons, doneNameIn, h3]
      · rw [hstep]; simp [List.any_cons, isFailedScenario, h4]
      · rw [hstep]; exact h6
  | false =>
      have hstep : complexStep O cfg st =
          (false, { st with trace := st.trace ++ [Event.probe "debugpy" false] }) := by
        simp [complexStep, hd]
      refine ⟨[Event.probe "debugpy" false], ?_, ?_, ?_, ?_, ?_⟩
      · rw [hstep]
      · simp [List.all_cons, mainEvent]
      · simp [List.all_cons, doneNameIn]
      · rw [hstep]; simp [List.any_cons, isFailedScenario]
      · rw [hstep]; exact fun d hmem => hmem

theorem setup_config_initState : setup_config initState = (cfg0, stInit) := by
  simp [setup_config, initState, mkdtemp, makedirs, cfg0, stInit]

theorem harnessMain_shape (O : Oracle) (h : O.binExists = true) :
    ∃ es,
      (harnessMain O).2.trace =
        Event.provision cfg0 :: (es ++ [Event.destroyEv cfg0 true])
      ∧ es.all (mainEvent cfg0) = true
      ∧ (harnessMain O).1 = (if es.any isFailedScenario then 1 else 0)
      ∧ (∃ bC, Event.scenarioDone "test_c" bC ∈ es
          ∧ (O.compile "test_c" = CompileOutcome.toolMissing → bC = false))
      ∧ (∃ bR, Event.scenarioDone "test_rs" bR ∈ es)
      ∧ (O.debugpyOk = false →
          Event.skipEv "test_py" ∈ es
          ∧ es.all (fun e => !(isDoneOf "test_py" e)) = true)
      ∧ (O.delveOk = false →
          Event.skipEv "test_go" ∈ es
          ∧ es.all (fun e => !(isDoneOf "test_go" e)) = true) := by
  simp only [harnessMain, h, Bool.not_true, Bool.false_eq_true, if_false,
    setup_config_initState]
  obtain ⟨esC, hC1, hC2, hC3, hC4, hC5, hC6, hC7⟩ := cStep_spec O cfg0 stInit
  set f1 := (cStep O cfg0 stInit).1 with hf1
  set st1 := (cStep O cfg0 stInit).2 with hst1
  obtain ⟨esR, hR1, hR2, hR3, hR4, hR5, hR6⟩ := rStep_spec O cfg0 st1
  set f2 := (rStep O cfg0 st1).1 with hf2
  set st2 := (rStep O cfg0 st1).2 with hst2
  obtain ⟨esP, hP1, hP2, hP3, hP4, hP5, hP6⟩ := pythonStep_spec O cfg0 st2
  set f3 := (pythonStep O cfg0 st2).1 with hf3
  set st3 := (pythonStep O cfg0 st2).2 with hst3
  obtain ⟨esG, hG1, hG2, hG3, hG4, hG5, hG6⟩ := goStep_spec O cfg0 st3
  set f4 := (goStep O cfg0 st3).1 with hf4
  set st4 := (goStep O cfg0 st3).2 with hst4
  obtain ⟨esX, hX1, hX2, hX3, hX4, hX5⟩ := complexStep_spec O cfg0 st4
  set f5 := (complexStep O cfg0 st4).1 with hf5
  set st5 := (complexStep O cfg0 st4).2 with hst5
  have hmem0 : cfg0 ∈ stInit.fs.dirs := by simp [stInit]
  have hmem5 : cfg0 ∈ st5.fs.dirs :=
    hX5 _ (hG5 _ (hP5 _ (hR6 _ (hC7 _ hmem0))))
  have hrm : rmtree st5.fs cfg0 = Except.ok { st5.fs with
      dirs := st5.fs.dirs.filter (fun p => !(p == cfg0 || isStrictlyInside p cfg0)) } := by
    simp [rmtree, hmem5]
  rw [hrm]
  refine ⟨esC ++ (esR ++ (esP ++ (esG ++ esX))), ?_, ?_, ?_, ?_, ?_, ?_, ?_⟩
  · rw [hX1, hG1, hP1, hR1, hC1]
    simp [stInit]
  · simp [List.all_append, hC2, hR2, hP2, hG2, hX2]
  · have hany : (esC ++ (esR ++ (esP ++ (esG ++ esX)))).any isFailedScenario =
        (f1 || f2 || f3 || f4 || f5) := by
      simp [List.any_append, hC4, hR4, hP4, hG4, hX4, Bool.or_assoc]
    rw [hany]
  · exact ⟨!f1, List.mem_append_left _ hC5, fun htm => by simp [hC6 htm]⟩
  · exact ⟨!f2, List.mem_append_right _ (List.mem_append_left _ hR5)⟩
  · intro hd
    obtain ⟨hskip, hnod⟩ := hP6 hd
    constructor
    · exact List.mem_append_right _ (List.mem_append_right _ (List.mem_append_left _ hskip))
    · simp only [List.all_append, Bool.and_eq_true]
      refine ⟨?_, ?_, hnod, ?_, ?_⟩
      · exact all_imp (fun e he => by
          simp [doneNameIn_single_ne (by decide : ("test_c" : String) ≠ "test_py") he]) hC3
      · exact all_imp (fun e he => by
          simp [doneNameIn_single_ne (by decide : ("test_rs" : String) ≠ "test_py") he]) hR3
      · exact all_imp (fun e he => by
          simp [doneNameIn_single_ne (by decide : ("test_go" : String) ≠ "test_py") he]) hG3
      · exact all_imp (fun e he => by
          simp [doneNameIn_single_ne (by decide : ("complex_python" : String) ≠ "test_py") he]) hX3
  · intro hd
    obtain ⟨hskip, hnod⟩ := hG6 hd
    constructor
    · exact List.mem_append_right _ (List.mem_append_right _
        (List.mem_append_right _ (List.mem_append_left _ hskip)))
    · simp only [List.all_append, Bool.and_eq_true]
      refine ⟨?_, ?_, ?_, hnod, ?_⟩
      · exact all_imp (fun e he => by
          simp [doneNameIn_single_ne (by decide : ("test_c" : String) ≠ "test_go") he]) hC3
      · exact all_imp (fun e he => by
          simp [doneNameIn_single_ne (by decide : ("test_rs" : String) ≠ "test_go") he]) hR3
      · exact all_imp (fun e he => by
          simp [doneNameIn_single_ne (by decide : ("test_py" : String) ≠ "test_go") he]) hP3
      · exact all_imp (fun e he => by
          simp [doneNameIn_single_ne (by decide : ("complex_python" : String) ≠ "test_go") he]) hX3

theorem rdc_snd_trace (O : Oracle) (cmd : List String) (cfg : Option DirPath)
    (inp : Option String) (st : HState) :
    (run_debugger_command O cmd cfg inp st).2.trace =
      st.trace ++ [Event.invoke cmd cfg inp.isSome
        ((O.results st.counter).returncode == 0)] := rfl

theorem sessOutcome_congr {O Op : Oracle} {c : Nat} (expected : String)
    (e1 : Op.results (c+1) = O.results (c+1))
    (e2 : Op.results (c+2) = O.results (c+2))
    (e3 : Op.results (c+3) = O.results (c+3))
    (e4 : Op.results (c+4) = O.results (c+4))
    (e6 : Op.results (c+6) = O.results (c+6))
    (e7 : Op.results (c+7) = O.results (c+7))
    (e9 : Op.results (c+9) = O.results (c+9)) :
    sessOutcome Op c expected = sessOutcome O c expected := by
  simp [sessOutcome, e1, e2, e3, e4, e6, e7, e9]

theorem testOutcome_congr {O Op : Oracle} {c : Nat} {comp : Option String}
    {name expected : String}
    (hc : Op.compile name = O.compile name)
    (hs : sessOutcome Op c expected = sessOutcome O c expected) :
    testOutcome Op c comp name expected = testOutcome O c comp name expected := by
  cases comp with
  | none => simpa [testOutcome] using hs
  | some t =>
      simp only [testOutcome, hc]
      cases O.compile name <;> simp [hs]

theorem self_mem_makedirs (fs : FS) (d : DirPath) : d ∈ (makedirs fs d).dirs := by
  unfold makedirs
  split
  · assumption
  · simp

theorem test_program_run_stop_start (O : Oracle) (binary expected : String)
    (cfg : DirPath) (args : List String) (st : HState) :
    ∃ rest, (test_program_run O binary expected cfg args st).2.trace =
      st.trace ++
        (Event.invoke ["stop"] (some cfg) false
            ((O.results st.counter).returncode == 0) ::
         Event.invoke (["start", binary, "--stop-on-entry"] ++ args) (some cfg) false
            ((O.results (st.counter + 1)).returncode == 0) :: rest) := by
  simp only [test_program_run]
  repeat' split
  all_goals simp only [rdc_snd_trace, rdc_snd_counter, List.append_assoc,
    List.cons_append, List.nil_append, List.singleton_append]
  all_goals exact ⟨_, rfl⟩

theorem test_program_run_trace_success (O : Oracle) (binary expected : String)
    (cfg : DirPath) (args : List String) (st : HState)
    (h1 : (O.results (st.counter+1)).returncode = 0)
    (h2 : (O.results (st.counter+2)).returncode = 0)
    (h3 : (O.results (st.counter+3)).returncode = 0)
    (h4 : (O.results (st.counter+4)).returncode = 0)
    (h6 : (O.results (st.counter+6)).returncode = 0)
    (h7 : (O.results (st.counter+7)).returncode = 0) :
    (test_program_run O binary expected cfg args st).2.trace =
      st.trace ++ sessEvents O st.counter binary cfg args := by
  simp only [test_program_run, rdc_fst, rdc_snd_counter, Nat.add_assoc]
  simp [h1, h2, h3, h4, h6, h7, apply_ite Prod.snd, ite_self,
    rdc_snd_trace, rdc_snd_counter, sessEvents, Nat.add_assoc]

theorem test_complex_stop_start (O : Oracle) (cfg : DirPath) (st : HState)
    (hx : O.complexAppExists = true) :
    ∃ rest, (test_complex_python O cfg st).2.trace =
      st.trace ++
        (Event.invoke ["stop"] (some cfg) false
            ((O.results st.counter).returncode == 0) ::
         Event.invoke ["start", "main.py", "--adapter", "debugpy", "--stop-on-entry"]
            (some cfg) false ((O.results (st.counter + 1)).returncode == 0) :: rest) := by
  simp only [test_complex_python, hx, Bool.not_true, Bool.false_eq_true, if_false]
  repeat' split
  all_goals simp only [rdc_snd_trace, rdc_snd_counter, List.append_assoc,
    List.cons_append, List.nil_append, List.singleton_append]
  all_goals exact ⟨_, rfl⟩

/-- C10: if the debugger binary does not exist at its expected path, the
harness exits with code 1 before provisioning any isolated environment
and before invoking any scenario (the event trace stays empty). -/
theorem C10_missing_binary (O : Oracle) (h : O.binExists = false) :
    harnessMain O = (1, initState) ∧ initState.trace = [] := by
  constructor
  · simp [harnessMain, h]
  · rfl

/-- Witness for C10 at the concrete oracle `Onobin`. -/
theorem C10_missing_binary_witness :
    Onobin.binExists = false
    ∧ (harnessMain Onobin = (1, initState) ∧ initState.trace = []) :=
  ⟨rfl, C10_missing_binary Onobin rfl⟩

/-- C5: with the debugger binary present, the harness's exit code is
always 0 or 1, and it is 0 exactly when no scenario-result record in the
run's trace is a failure: skips and probes never influence it. -/
theorem C5_exit_code (O : Oracle) (h : O.binExists = true) :
    ((harnessMain O).1 = 0 ∨ (harnessMain O).1 = 1)
    ∧ (harnessMain O).1 =
        (if (harnessMain O).2.trace.any isFailedScenario then 1 else 0) := by
  obtain ⟨es, h1, _, h3, _⟩ := harnessMain_shape O h
  have hany : (harnessMain O).2.trace.any isFailedScenario =
      es.any isFailedScenario := by
    rw [h1]
    simp [List.any_cons, List.any_append, isFailedScenario]
  constructor
  · rw [h3]
    cases es.any isFailedScenario <;> simp
  · rw [h3, hany]

/-- Witness for C5 at the concrete oracle `Oall`. -/
theorem C5_exit_code_witness :
    Oall.binExists = true
    ∧ (((harnessMain Oall).1 = 0 ∨ (harnessMain Oall).1 = 1)
       ∧ (harnessMain Oall).1 =
           (if (harnessMain Oall).2.trace.any isFailedScenario then 1 else 0)) :=
  ⟨rfl, C5_exit_code Oall rfl⟩

/-- C4 counterexample: the destroy operation used by the harness is
`shutil.rmtree` with default arguments, and calling it on an absent
directory raises `FileNotFoundError` instead of succeeding. -/
theorem C4_counterexample :
    rmtree { dirs := [], tempCounter := 0 } cfg0 =
      Except.error "FileNotFoundError" := rfl

/-- C4 (amended): the destroy operation removes the directory tree when
the directory exists, and raises `FileNotFoundError` when it is already
absent — it is not idempotent. -/
theorem C4_amended_rmtree (fs : FS) (d : DirPath) :
    (d ∈ fs.dirs → ∃ fsp, rmtree fs d = Except.ok fsp ∧ d ∉ fsp.dirs)
    ∧ (d ∉ fs.dirs → rmtree fs d = Except.error "FileNotFoundError") := by
  constructor
  · intro hm
    refine ⟨{ fs with
      dirs := fs.dirs.filter (fun p => !(p == d || isStrictlyInside p d)) }, ?_, ?_⟩
    · simp [rmtree, hm]
    · simp [List.mem_filter]
  · intro hm
    simp [rmtree, hm]

/-- Witness for the amended C4, applying it on a filesystem that has the
directory and on one that does not. -/
theorem C4_amended_rmtree_witness :
    (cfg0 ∈ (FS.mk [cfg0] 1).dirs →
      ∃ fsp, rmtree (FS.mk [cfg0] 1) cfg0 = Except.ok fsp ∧ cfg0 ∉ fsp.dirs)
    ∧ (cfg0 ∉ (FS.mk [] 0).dirs →
      rmtree (FS.mk [] 0) cfg0 = Except.error "FileNotFoundError")
    ∧ cfg0 ∈ (FS.mk [cfg0] 1).dirs
    ∧ cfg0 ∉ (FS.mk [] 0).dirs :=
  ⟨(C4_amended_rmtree (FS.mk [cfg0] 1) cfg0).1,
   (C4_amended_rmtree (FS.mk [] 0) cfg0).2,
   by decide, by decide⟩

/-- C9: every debugger invocation that carries a config directory places
the runtime-socket root at the `runtime` subdirectory strictly inside the
config root, ensures it exists before the child runs (creating it without
error when already present), and removing the config root necessarily
removes the runtime root. -/
theorem C9_runtime_inside_config (O : Oracle) (cmd : List String)
    (d : DirPath) (inp : Option String) (st : HState) :
    DirPath.sub d "runtime" ∈ (run_debugger_command O cmd (some d) inp st).2.fs.dirs
    ∧ isStrictlyInside (DirPath.sub d "runtime") d = true
    ∧ (∀ fs fsp, rmtree fs d = Except.ok fsp →
        DirPath.sub d "runtime" ∉ fsp.dirs) := by
  refine ⟨?_, ?_, ?_⟩
  · have : (run_debugger_command O cmd (some d) inp st).2.fs =
        makedirs st.fs (DirPath.sub d "runtime") := rfl
    rw [this]
    exact self_mem_makedirs _ _
  · simp [isStrictlyInside]
  · intro fs fsp hok
    unfold rmtree at hok
    split at hok
    · cases hok
      simp [List.mem_filter, isStrictlyInside]
    · cases hok

/-- Witness for C9 at concrete inputs, with the removal clause discharged
on a concrete filesystem. -/
theorem C9_runtime_inside_config_witness :
    DirPath.sub cfg0 "runtime" ∈
      (run_debugger_command Oall ["stop"] (some cfg0) none initState).2.fs.dirs
    ∧ isStrictlyInside (DirPath.sub cfg0 "runtime") cfg0 = true
    ∧ rmtree (FS.mk [DirPath.sub cfg0 "runtime", cfg0] 1) cfg0 =
        Except.ok (FS.mk [] 1)
    ∧ DirPath.sub cfg0 "runtime" ∉ (FS.mk ([] : List DirPath) 1).dirs :=
  ⟨(C9_runtime_inside_config Oall ["stop"] cfg0 none initState).1,
   (C9_runtime_inside_config Oall ["stop"] cfg0 none initState).2.1,
   by rfl,
   (C9_runtime_inside_config Oall ["stop"] cfg0 none initState).2.2
     (FS.mk [DirPath.sub cfg0 "runtime", cfg0] 1) (FS.mk [] 1) (by rfl)⟩

set_option maxRecDepth 10000 in
/-- C1 counterexample: on a fully equipped host the run completes both
the C and the Rust scenario, yet only one environment is ever
provisioned, and every debugger invocation of the whole run carries that
same config root — the isolated environment is shared across scenarios,
not owned per scenario. -/
theorem C1_counterexample :
    ((harnessMain Oall).2.trace.filter isProvisionEv) = [Event.provision cfg0]
    ∧ Event.scenarioDone "test_c" true ∈ (harnessMain Oall).2.trace
    ∧ Event.scenarioDone "test_rs" true ∈ (harnessMain Oall).2.trace
    ∧ (harnessMain Oall).2.trace.all (invokeUses cfg0) = true := by decide

/-- C1 (amended): one isolated environment is provisioned per run — the
first event of the run — and destroyed after all scenarios — the last
event; every debugger invocation in between shares that single config
root.  The provisioner itself never hands out the same path twice within
one process lifetime. -/
theorem C1_amended_one_shared_env (O : Oracle) (h : O.binExists = true) :
    (∃ es, (harnessMain O).2.trace =
        Event.provision cfg0 :: (es ++ [Event.destroyEv cfg0 true])
      ∧ es.all (fun e => !(isProvisionEv e)) = true
      ∧ es.all (invokeUses cfg0) = true)
    ∧ (∀ fs s t, (mkdtemp fs s).1 ≠ (mkdtemp (mkdtemp fs s).2 t).1) := by
  constructor
  · obtain ⟨es, h1, h2, _⟩ := harnessMain_shape O h
    refine ⟨es, h1, ?_, ?_⟩
    · exact all_imp (fun e he => by simp [mainEvent_notProvision he]) h2
    · exact all_imp (fun e he => mainEvent_invokeUses he) h2
  · intro fs s t
    intro hq
    simp [mkdtemp] at hq

/-- Witness for the amended C1 at the concrete oracle `Oall`. -/
theorem C1_amended_one_shared_env_witness :
    Oall.binExists = true
    ∧ ((∃ es, (harnessMain Oall).2.trace =
          Event.provision cfg0 :: (es ++ [Event.destroyEv cfg0 true])
        ∧ es.all (fun e => !(isProvisionEv e)) = true
        ∧ es.all (invokeUses cfg0) = true)
       ∧ (∀ fs s t, (mkdtemp fs s).1 ≠ (mkdtemp (mkdtemp fs s).2 t).1)) :=
  ⟨rfl, C1_amended_one_shared_env Oall rfl⟩

set_option maxRecDepth 10000 in
/-- C2 counterexample: with gcc absent from the host the compilation
step of the C scenario raises, and the harness marks the scenario failed
(exit code 1) instead of skipping it — the toolchain probes only guard
the Python and Go scenarios. -/
theorem C2_counterexample :
    Event.compileEv "test_c" CompileOutcome.toolMissing ∈
      (harnessMain OgccMissing).2.trace
    ∧ Event.scenarioDone "test_c" false ∈ (harnessMain OgccMissing).2.trace
    ∧ Event.skipEv "test_c" ∉ (harnessMain OgccMissing).2.trace
    ∧ (harnessMain OgccMissing).1 = 1 := by decide

theorem all_wrap {p : Event → Bool} {es : List Event} (a b : Event)
    (ha : p a = true) (hb : p b = true) (hes : es.all p = true) :
    (a :: (es ++ [b])).all p = true := by
  simp only [List.all_cons, List.all_append, List.all_nil, ha, hb, hes,
    Bool.and_true, Bool.true_and, Bool.and_self]

/-- C2 (amended): the capability probes cover only the debugpy and dlv
toolchains — when one of those is absent the corresponding scenario is
cleanly skipped and no result is recorded for it; the C (and Rust)
compilers are unprobed, so an absent compiler surfaces as a caught
compilation exception that marks the scenario failed and forces exit
code 1, exactly as a failing compilation does. -/
theorem C2_amended_probe_scope (O : Oracle) (h : O.binExists = true) :
    (O.debugpyOk = false →
      Event.skipEv "test_py" ∈ (harnessMain O).2.trace
      ∧ (harnessMain O).2.trace.all (fun e => !(isDoneOf "test_py" e)) = true)
    ∧ (O.delveOk = false →
      Event.skipEv "test_go" ∈ (harnessMain O).2.trace
      ∧ (harnessMain O).2.trace.all (fun e => !(isDoneOf "test_go" e)) = true)
    ∧ (O.compile "test_c" = CompileOutcome.toolMissing →
      Event.scenarioDone "test_c" false ∈ (harnessMain O).2.trace
      ∧ (harnessMain O).1 = 1) := by
  obtain ⟨es, h1, h2, h3, ⟨bC, hbC, hbCtm⟩, _, hpy, hgo⟩ := harnessMain_shape O h
  refine ⟨?_, ?_, ?_⟩
  · intro hd
    obtain ⟨hskip, hall⟩ := hpy hd
    refine ⟨?_, ?_⟩
    · rw [h1]
      exact List.mem_cons_of_mem _ (List.mem_append_left _ hskip)
    · rw [h1]
      exact all_wrap _ _ rfl rfl hall
  · intro hd
    obtain ⟨hskip, hall⟩ := hgo hd
    refine ⟨?_, ?_⟩
    · rw [h1]
      exact List.mem_cons_of_mem _ (List.mem_append_left _ hskip)
    · rw [h1]
      exact all_wrap _ _ rfl rfl hall
  · intro htm
    have hbc := hbCtm htm
    subst hbc
    refine ⟨?_, ?_⟩
    · rw [h1]
      exact List.mem_cons_of_mem _ (List.mem_append_left _ hbC)
    · rw [h3]
      have hany : es.any isFailedScenario = true :=
        List.any_eq_true.mpr ⟨_, hbC, by simp [isFailedScenario]⟩
      simp [hany]

/-- Witness for the amended C2 at the concrete oracle `OgccMissing`,
which has debugpy, dlv and gcc all absent. -/
theorem C2_amended_probe_scope_witness :
    (Event.skipEv "test_py" ∈ (harnessMain OgccMissing).2.trace
      ∧ (harnessMain OgccMissing).2.trace.all
          (fun e => !(isDoneOf "test_py" e)) = true)
    ∧ (Event.skipEv "test_go" ∈ (harnessMain OgccMissing).2.trace
      ∧ (harnessMain OgccMissing).2.trace.all
          (fun e => !(isDoneOf "test_go" e)) = true)
    ∧ (Event.scenarioDone "test_c" false ∈ (harnessMain OgccMissing).2.trace
      ∧ (harnessMain OgccMissing).1 = 1) :=
  ⟨(C2_amended_probe_scope OgccMissing rfl).1 rfl,
   (C2_amended_probe_scope OgccMissing rfl).2.1 rfl,
   (C2_amended_probe_scope OgccMissing rfl).2.2 (by rfl)⟩

set_option maxRecDepth 10000 in
/-- C3 counterexample: two runs identical except for the exit code of the
`locals` inspection command produce different scenario outcomes; with
`locals` failing the scenario is marked failed even though the captured
output contains the expected substring.  The `locals` exit code therefore
does decide the scenario outcome, contrary to the claim. -/
theorem C3_counterexample :
    (test_program OlocalsFail "test_c" "hello_world.c" (some "gcc") cExp cfg0 []
      initState).1 = false
    ∧ (test_program OlocalsOk "test_c" "hello_world.c" (some "gcc") cExp cfg0 []
      initState).1 = true
    ∧ Event.invoke ["locals"] (some cfg0) false false ∈
        (test_program OlocalsFail "test_c" "hello_world.c" (some "gcc") cExp cfg0 []
          initState).2.trace
    ∧ pyIn cExp (OlocalsFail.results 9).stdout = true
    ∧ (List.range 10).all
        (fun k => k == 6 || decide (OlocalsFail.results k = OlocalsOk.results k)) =
        true := by decide

/-- C3 (amended): the scenario outcome never depends on the exit code of
the `threads` inspection command — any two runs agreeing everywhere
except on the sixth spawned process of the session (the `threads` call)
have equal outcomes, whatever those outcomes are — while a failing
`locals` command forces the scenario to be marked failed. -/
theorem C3_amended_threads_nonfatal_locals_fatal
    (O Op : Oracle) (name srcF : String) (comp : Option String)
    (expected : String) (cfg : DirPath) (args : List String) (st : HState)
    (hagree : ∀ k, k ≠ st.counter + 5 → Op.results k = O.results k)
    (hcomp : Op.compile name = O.compile name) :
    (test_program Op name srcF comp expected cfg args st).1 =
      (test_program O name srcF comp expected cfg args st).1
    ∧ ((O.results (st.counter + 6)).returncode ≠ 0 →
        (test_program O name srcF comp expected cfg args st).1 = false) := by
  constructor
  · rw [test_program_fst, test_program_fst]
    exact testOutcome_congr hcomp (sessOutcome_congr expected
      (hagree _ (by omega)) (hagree _ (by omega)) (hagree _ (by omega))
      (hagree _ (by omega)) (hagree _ (by omega)) (hagree _ (by omega))
      (hagree _ (by omega)))
  · intro hlocals
    rw [test_program_fst]
    have hloc : ((O.results (st.counter + 6)).returncode == 0) = false := by
      simpa using hlocals
    cases comp with
    | none => simp [testOutcome, sessOutcome, hloc]
    | some t =>
        cases hcn : O.compile name <;> simp [testOutcome, sessOutcome, hloc, hcn]

/-- Witness for the amended C3: `OthreadsFail` differs from `OlocalsOk`
only in the `threads` command's result, and the scenario passes in both
runs despite the failing `threads`; at `OlocalsFail` the failing `locals`
forces a failed scenario. -/
theorem C3_amended_witness :
    (test_program OthreadsFail "test_c" "hello_world.c" (some "gcc") cExp cfg0 []
      initState).1 =
      (test_program OlocalsOk "test_c" "hello_world.c" (some "gcc") cExp cfg0 []
        initState).1
    ∧ (test_program OlocalsOk "test_c" "hello_world.c" (some "gcc") cExp cfg0 []
      initState).1 = true
    ∧ (test_program OthreadsFail "test_c" "hello_world.c" (some "gcc") cExp cfg0 []
      initState).1 = true
    ∧ OthreadsFail.results 5 ≠ OlocalsOk.results 5
    ∧ (test_program OlocalsFail "test_c" "hello_world.c" (some "gcc") cExp cfg0 []
      initState).1 = false := by
  have hag : ∀ k, k ≠ initState.counter + 5 →
      OthreadsFail.results k = OlocalsOk.results k := by
    intro k hk
    have h5 : k ≠ 5 := by simpa [initState] using hk
    simp [OthreadsFail, OlocalsOk, h5]
  have hagF : ∀ k, k ≠ initState.counter + 5 →
      OlocalsFail.results k = OlocalsFail.results k := fun _ _ => rfl
  refine ⟨(C3_amended_threads_nonfatal_locals_fatal OlocalsOk OthreadsFail
      "test_c" "hello_world.c" (some "gcc") cExp cfg0 [] initState hag rfl).1,
    by decide, by decide, by decide,
    (C3_amended_threads_nonfatal_locals_fatal OlocalsFail OlocalsFail
      "test_c" "hello_world.c" (some "gcc") cExp cfg0 [] initState hagF rfl).2
      (by decide)⟩

/-- C6: the scenario verdict of a session whose protocol steps all
succeed is exactly the literal substring containment of the expected
text in the stdout of the `output` command; and a failed verification
never aborts the remaining scenarios — the Rust scenario's result is
recorded in every run, whatever happened before it. -/
theorem C6_substring_verification (O : Oracle) (name srcF : String)
    (comp : Option String) (expected : String) (cfg : DirPath)
    (args : List String) (st : HState)
    (hc : comp = none ∨ O.compile name = CompileOutcome.success)
    (h1 : (O.results (st.counter + 1)).returncode = 0)
    (h2 : (O.results (st.counter + 2)).returncode = 0)
    (h3 : (O.results (st.counter + 3)).returncode = 0)
    (h4 : (O.results (st.counter + 4)).returncode = 0)
    (h6 : (O.results (st.counter + 6)).returncode = 0)
    (h7 : (O.results (st.counter + 7)).returncode = 0) :
    (test_program O name srcF comp expected cfg args st).1 =
      pyIn expected (O.results (st.counter + 9)).stdout
    ∧ (∀ Op : Oracle, Op.binExists = true →
        ∃ b, Event.scenarioDone "test_rs" b ∈ (harnessMain Op).2.trace) := by
  constructor
  · rw [test_program_fst]
    rcases hc with hnone | hsucc
    · subst hnone
      simp [testOutcome, sessOutcome, h1, h2, h3, h4, h6, h7]
    · cases comp with
      | none => simp [testOutcome, sessOutcome, h1, h2, h3, h4, h6, h7]
      | some t => simp [testOutcome, hsucc, sessOutcome, h1, h2, h3, h4, h6, h7]
  · intro Op hb
    obtain ⟨es, hs1, _, _, _, hbR, _, _⟩ := harnessMain_shape Op hb
    obtain ⟨bR, hmem⟩ := hbR
    exact ⟨bR, by
      rw [hs1]
      exact List.mem_cons_of_mem _ (List.mem_append_left _ hmem)⟩

/-- Witness for C6 at a concrete all-successful session and, for the
second clause, the concrete oracle `Oall`. -/
theorem C6_substring_verification_witness :
    (test_program OlocalsOk "test_py" "hello_world.py" none cExp cfg0 []
      initState).1 =
      pyIn cExp (OlocalsOk.results (initState.counter + 9)).stdout
    ∧ ∃ b, Event.scenarioDone "test_rs" b ∈ (harnessMain Oall).2.trace :=
  ⟨(C6_substring_verification OlocalsOk "test_py" "hello_world.py" none cExp cfg0
      [] initState (Or.inl rfl) (by decide) (by decide) (by decide) (by decide)
      (by decide) (by decide)).1,
   (C6_substring_verification OlocalsOk "test_py" "hello_world.py" none cExp cfg0
      [] initState (Or.inl rfl) (by decide) (by decide) (by decide) (by decide)
      (by decide) (by decide)).2 Oall rfl⟩

/-- C7: in every session that actually starts (no compilation exception),
the first two debugger invocations are `stop` followed immediately by
`start` — with no invocation before them — both in `test_program` and in
`test_complex_python`; and the scenario outcome is completely independent
of the `stop` command's result, which never raises in the first place
(every invocation returns a result triple). -/
theorem C7_stop_precedes_start (O Op : Oracle) (name srcF : String)
    (comp : Option String) (expected : String) (cfg : DirPath)
    (args : List String) (st : HState)
    (hagree : ∀ k, k ≠ st.counter → Op.results k = O.results k)
    (hcomp : Op.compile name = O.compile name)
    (hc : comp = none ∨ O.compile name = CompileOutcome.success) :
    (∃ b pre rest,
        (test_program O name srcF comp expected cfg args st).2.trace =
          st.trace ++ (pre ++
            (Event.invoke ["stop"] (some cfg) false
                ((O.results st.counter).returncode == 0) ::
             Event.invoke (["start", b, "--stop-on-entry"] ++ args) (some cfg) false
                ((O.results (st.counter + 1)).returncode == 0) :: rest))
        ∧ pre.all (fun e => !(isInvokeEv e)) = true)
    ∧ (test_program Op name srcF comp expected cfg args st).1 =
        (test_program O name srcF comp expected cfg args st).1
    ∧ (O.complexAppExists = true →
        ∃ rest, (test_complex_python O cfg st).2.trace =
          st.trace ++
            (Event.invoke ["stop"] (some cfg) false
                ((O.results st.counter).returncode == 0) ::
             Event.invoke ["start", "main.py", "--adapter", "debugpy", "--stop-on-entry"]
                (some cfg) false ((O.results (st.counter + 1)).returncode == 0) ::
             rest)) := by
  refine ⟨?_, ?_, fun hx => test_complex_stop_start O cfg st hx⟩
  · rcases hc with hnone | hsucc
    · subst hnone
      obtain ⟨rest, hr⟩ := test_program_run_stop_start O srcF expected cfg args st
      exact ⟨srcF, [], rest, by simpa [test_program] using hr, rfl⟩
    · cases comp with
      | none =>
          obtain ⟨rest, hr⟩ := test_program_run_stop_start O srcF expected cfg args st
          exact ⟨srcF, [], rest, by simpa [test_program] using hr, rfl⟩
      | some t =>
          obtain ⟨rest, hr⟩ := test_program_run_stop_start O name expected cfg args
            { st with trace := st.trace ++ [Event.compileEv name CompileOutcome.success] }
          refine ⟨name, [Event.compileEv name CompileOutcome.success], rest, ?_, rfl⟩
          simp only [test_program, hsucc]
          rw [hr]
          simp
  · rw [test_program_fst, test_program_fst]
    exact testOutcome_congr hcomp (sessOutcome_congr expected
      (hagree _ (by omega)) (hagree _ (by omega)) (hagree _ (by omega))
      (hagree _ (by omega)) (hagree _ (by omega)) (hagree _ (by omega))
      (hagree _ (by omega)))

/-- Witness for C7: `OstopFail` differs from `OlocalsOk` only in the
`stop` command's result, and the C-scenario session exhibits the
stop-then-start prefix. -/
theorem C7_stop_precedes_start_witness :
    (∃ b pre rest,
        (test_program OlocalsOk "test_c" "hello_world.c" (some "gcc") cExp cfg0 []
          initState).2.trace =
          initState.trace ++ (pre ++
            (Event.invoke ["stop"] (some cfg0) false
                ((OlocalsOk.results initState.counter).returncode == 0) ::
             Event.invoke (["start", b, "--stop-on-entry"] ++ ([] : List String))
                (some cfg0) false
                ((OlocalsOk.results (initState.counter + 1)).returncode == 0) ::
             rest))
        ∧ pre.all (fun e => !(isInvokeEv e)) = true)
    ∧ (test_program OstopFail "test_c" "hello_world.c" (some "gcc") cExp cfg0 []
        initState).1 =
        (test_program OlocalsOk "test_c" "hello_world.c" (some "gcc") cExp cfg0 []
          initState).1
    ∧ (OlocalsOk.complexAppExists = true →
        ∃ rest, (test_complex_python OlocalsOk cfg0 initState).2.trace =
          initState.trace ++
            (Event.invoke ["stop"] (some cfg0) false
                ((OlocalsOk.results initState.counter).returncode == 0) ::
             Event.invoke ["start", "main.py", "--adapter", "debugpy", "--stop-on-entry"]
                (some cfg0) false
                ((OlocalsOk.results (initState.counter + 1)).returncode == 0) ::
             rest)) := by
  have hag : ∀ k, k ≠ initState.counter →
      OstopFail.results k = OlocalsOk.results k := by
    intro k hk
    have h0 : k ≠ 0 := by simpa [initState] using hk
    simp [OstopFail, OlocalsOk, h0]
  exact C7_stop_precedes_start OlocalsOk OstopFail "test_c" "hello_world.c"
    (some "gcc") cExp cfg0 [] initState hag rfl (Or.inr rfl)

/-- C8: the scenario outcome is completely independent of the result of
the final `await` issued after the last `continue` (the ninth spawned
process of the session), and on a session whose required steps all
succeed the `output` command is invoked afterwards regardless. -/
theorem C8_final_await_tolerated (O Op : Oracle) (name srcF : String)
    (comp : Option String) (expected : String) (cfg : DirPath)
    (args : List String) (st : HState)
    (hagree : ∀ k, k ≠ st.counter + 8 → Op.results k = O.results k)
    (hcomp : Op.compile name = O.compile name)
    (hc : comp = none ∨ O.compile name = CompileOutcome.success)
    (h1 : (O.results (st.counter + 1)).returncode = 0)
    (h2 : (O.results (st.counter + 2)).returncode = 0)
    (h3 : (O.results (st.counter + 3)).returncode = 0)
    (h4 : (O.results (st.counter + 4)).returncode = 0)
    (h6 : (O.results (st.counter + 6)).returncode = 0)
    (h7 : (O.results (st.counter + 7)).returncode = 0) :
    (test_program Op name srcF comp expected cfg args st).1 =
      (test_program O name srcF comp expected cfg args st).1
    ∧ Event.invoke ["output"] (some cfg) false
        ((O.results (st.counter + 9)).returncode == 0) ∈
        (test_program O name srcF comp expected cfg args st).2.trace := by
  constructor
  · rw [test_program_fst, test_program_fst]
    exact testOutcome_congr hcomp (sessOutcome_congr expected
      (hagree _ (by omega)) (hagree _ (by omega)) (hagree _ (by omega))
      (hagree _ (by omega)) (hagree _ (by omega)) (hagree _ (by omega))
      (hagree _ (by omega)))
  · rcases hc with hnone | hsucc
    · subst hnone
      have htr := test_program_run_trace_success O srcF expected cfg args st
        h1 h2 h3 h4 h6 h7
      simp only [test_program]
      rw [htr]
      simp [sessEvents]
    · cases comp with
      | none =>
          have htr := test_program_run_trace_success O srcF expected cfg args st
            h1 h2 h3 h4 h6 h7
          simp only [test_program]
          rw [htr]
          simp [sessEvents]
      | some t =>
          have htr := test_program_run_trace_success O name expected cfg args
            { st with trace := st.trace ++ [Event.compileEv name CompileOutcome.success] }
            h1 h2 h3 h4 h6 h7
          simp only [test_program, hsucc]
          rw [htr]
          simp [sessEvents]

/-- Witness for C8: `Oawait2Fail` differs from `OlocalsOk` only in the
final await's result, and the outcome and the `output` invocation are
unaffected. -/
theorem C8_final_await_tolerated_witness :
    (test_program Oawait2Fail "test_c" "hello_world.c" (some "gcc") cExp cfg0 []
      initState).1 =
      (test_program OlocalsOk "test_c" "hello_world.c" (some "gcc") cExp cfg0 []
        initState).1
    ∧ Event.invoke ["output"] (some cfg0) false
        ((OlocalsOk.results (initState.counter + 9)).returncode == 0) ∈
        (test_program OlocalsOk "test_c" "hello_world.c" (some "gcc") cExp cfg0 []
          initState).2.trace := by
  have hag : ∀ k, k ≠ initState.counter + 8 →
      Oawait2Fail.results k = OlocalsOk.results k := by
    intro k hk
    have h8 : k ≠ 8 := by simpa [initState] using hk
    simp [Oawait2Fail, OlocalsOk, h8]
  exact C8_final_await_tolerated OlocalsOk Oawait2Fail "test_c" "hello_world.c"
    (some "gcc") cExp cfg0 [] initState hag rfl (Or.inr rfl)
    (by decide) (by decide) (by decide) (by decide) (by decide) (by decide)
